import Mathlib

/-!
Verification development for the Telegram link service
(`src/server/actions/telegram.ts`).

The TypeScript module is embedded shallowly: the ambient collaborators
(authentication, the user directory, the Telegram HTTP gateway, and the
environment configuration) are gathered into a `World` record, and each
operation is translated to a pure Lean function from a `World` (plus its
explicit arguments) to an outcome record holding

  * the returned value, as `Except String _` where the source may throw
    (`Except.error msg` models a thrown `Error` with message `msg`);
  * the ordered trace of collaborator calls the run performed
    (gateway fetches and user-directory reads/writes);
  * the user-directory state after the run.

JavaScript truthiness on optional strings (`undefined`/`null`/`""` are
falsy) is modelled by `jsTruthyOpt`, and `a || b` on such values by
`jsOr`.  The gateway's transport outcomes (HTTP ok / non-2xx per
endpoint) are part of the `World`; authentication and the user directory
are modelled as always-available collaborators returning values.
-/

/-- One entry of the gateway's update list: the fields the source reads,
`msg.message.from.username` (absent `from`/`username` modelled by `none`)
and `msg.message.chat.id`. -/
structure TgUpdate where
  fromUsername : Option String
  chatId : String
deriving Repr, DecidableEq

/-- The Telegram HTTP gateway: per-endpoint transport success flags and
the payloads a successful response carries. -/
structure Gateway where
  getMeOk : Bool
  getMeUsername : String
  getUpdatesOk : Bool
  updates : List TgUpdate
  sendOk : Bool
deriving Repr, DecidableEq

/-- Environment configuration: `TELEGRAM_BOT_TOKEN` and
`TELEGRAM_BOT_USERNAME` (unset environment variables are `none`). -/
structure Config where
  botToken : Option String
  botUsername : Option String
deriving Repr, DecidableEq

/-- The ambient state a run observes: the authenticated user id delivered
by `verifyUser` (`none` when there is no session), the handle stored in
the user directory for that user (`dbGetUserTelegramId`), the gateway and
the configuration. -/
structure World where
  auth : Option String
  storedHandle : Option String
  gw : Gateway
  cfg : Config
deriving Repr, DecidableEq

/-- A collaborator call, as recorded in a run's trace. -/
inductive Call where
  | getMe : Call
  | getUpdates (handle : String) : Call
  | sendMessage (chatId text : String) : Call
  | dbGet (userId : String) : Call
  | dbSet (userId handle : String) : Call
deriving Repr, DecidableEq

/-- Whether a call is an outbound gateway (network) call. -/
def Call.isGateway : Call → Bool
  | .getMe => true
  | .getUpdates _ => true
  | .sendMessage _ _ => true
  | _ => false

/-- Whether a call is a user-directory (persistence) read or write. -/
def Call.isDb : Call → Bool
  | .dbGet _ => true
  | .dbSet _ _ => true
  | _ => false

/-- Whether a call is the persistence `set` operation. -/
def Call.isSet : Call → Bool
  | .dbSet _ _ => true
  | _ => false

/-- JavaScript truthiness of a `string | null | undefined` value:
`undefined`/`null` (`none`) and the empty string are falsy. -/
def jsTruthyOpt : Option String → Bool
  | none => false
  | some v => v != ""

/-- JavaScript `a || b` on `string | null | undefined` values. -/
def jsOr (a b : Option String) : Option String :=
  if jsTruthyOpt a then a else b

/-- `MISSING_USERNAME_ERROR` from the source. -/
def MISSING_USERNAME_ERROR : String := "No saved Telegram username found"

/-- `BOT_NOT_STARTED_ERROR` from the source. -/
def BOT_NOT_STARTED_ERROR : String := "Bot not started yet"

/-- `CheckUserSetupResult` from the source (absent optional fields are
`none`). -/
structure CheckUserSetupResult where
  success : Bool
  error : Option String := none
  userId : Option String := none
  username : Option String := none
  chatId : Option String := none
  botId : Option String := none
deriving Repr, DecidableEq

/-- `TelegramActionData` from the source. -/
structure TelegramActionData where
  success : Bool
  error : Option String := none
  botId : Option String := none
  username : Option String := none
deriving Repr, DecidableEq

/-- The `ActionResponse` shape the two wrapped actions return. -/
structure ActionResponse where
  success : Bool
  error : Option String := none
  data : Option TelegramActionData := none
deriving Repr, DecidableEq

/-- Outcome of a `checkUserTelegramSetup` run: returned value (or thrown
error), call trace, and the user directory's state afterwards. -/
structure CheckOutcome where
  result : Except String CheckUserSetupResult
  calls : List Call
  stored : Option String
deriving Repr

/-- Outcome of a wrapped action run (these never throw). -/
structure ActionOutcome where
  resp : ActionResponse
  calls : List Call
  stored : Option String
deriving Repr, DecidableEq

/-- Outcome of a `checkTelegramUsername` run (read-only, never throws). -/
structure UsernameOutcome where
  resp : TelegramActionData
  calls : List Call
deriving Repr, DecidableEq

/-- `getBotUsername`: GET the identity endpoint; throws on non-2xx,
otherwise returns `data.result.username`. -/
def getBotUsername (w : World) : Except String String :=
  if w.gw.getMeOk then Except.ok w.gw.getMeUsername
  else Except.error "Failed to retrieve bot info"

/-- The linear scan inside `getChatIdByUsername`:
`data.result.find(msg => msg?.message?.from?.username === username)`. -/
def findChat (updates : List TgUpdate) (username : String) : Option TgUpdate :=
  updates.find? (fun u => u.fromUsername == some username)

/-- `getChatIdByUsername`: GET the updates endpoint; throws on non-2xx;
otherwise the first update whose sender username equals `username` yields
its chat id, and `none` (JS `null`) is returned when none matches. -/
def getChatIdByUsername (w : World) (username : String) :
    Except String (Option String) :=
  if w.gw.getUpdatesOk then
    Except.ok ((findChat w.gw.updates username).map TgUpdate.chatId)
  else Except.error "Failed to retrieve bot updates"

/-- `sendTelegramMessage`: POST `chat_id`/`text`; throws on non-2xx. -/
def sendTelegramMessage (w : World) (chatId text : String) :
    Except String Unit :=
  if w.gw.sendOk then Except.ok () else Except.error "Failed to send Telegram message"

/-- `finalUsername = username || dbUsername` of `checkUserTelegramSetup`. -/
def finalUsernameOf (w : World) (username : Option String) : Option String :=
  jsOr username w.storedHandle

/-- `replaceAll('@', '')`: drop every `@` character. -/
def stripAt (s : String) : String :=
  String.mk (s.data.filter (fun c => c != '@'))

/-- `sanitizedUsername` of `checkUserTelegramSetup`. -/
def sanitizedOf (w : World) (username : Option String) : String :=
  stripAt ((finalUsernameOf w username).getD "")

/-- The success value `checkUserTelegramSetup` builds. -/
def successResult (userId sanitized chatId botId : String) :
    CheckUserSetupResult :=
  { success := true
    userId := some userId
    username := some sanitized
    chatId := some chatId
    botId := some botId }

/-- `checkUserTelegramSetup` after user and bot id are resolved: read the
stored handle, compute `finalUsername` by JS `||`, fail with
`MISSING_USERNAME_ERROR` when it is falsy, scan the updates for the
sanitized handle, fail with `BOT_NOT_STARTED_ERROR` when the scan result
is falsy, and write the sanitized handle back unless the stored handle is
truthy and already equal to it. -/
def checkFrom (w : World) (username : Option String) (userId botId : String) :
    CheckOutcome :=
  if jsTruthyOpt (finalUsernameOf w username) then
    match getChatIdByUsername w (sanitizedOf w username) with
    | Except.error e =>
        ⟨Except.error e,
         [Call.dbGet userId, Call.getUpdates (sanitizedOf w username)],
         w.storedHandle⟩
    | Except.ok chatIdOpt =>
        if jsTruthyOpt chatIdOpt then
          if jsTruthyOpt w.storedHandle = false
              ∨ w.storedHandle ≠ some (sanitizedOf w username) then
            ⟨Except.ok (successResult userId (sanitizedOf w username)
                (chatIdOpt.getD "") botId),
             [Call.dbGet userId, Call.getUpdates (sanitizedOf w username),
              Call.dbSet userId (sanitizedOf w username)],
             some (sanitizedOf w username)⟩
          else
            ⟨Except.ok (successResult userId (sanitizedOf w username)
                (chatIdOpt.getD "") botId),
             [Call.dbGet userId, Call.getUpdates (sanitizedOf w username)],
             w.storedHandle⟩
        else
          ⟨Except.ok { success := false
                       error := some BOT_NOT_STARTED_ERROR
                       userId := some userId
                       botId := some botId },
           [Call.dbGet userId, Call.getUpdates (sanitizedOf w username)],
           w.storedHandle⟩
  else
    ⟨Except.ok { success := false
                 error := some MISSING_USERNAME_ERROR
                 userId := some userId
                 botId := some botId },
     [Call.dbGet userId], w.storedHandle⟩

/-- Prefix a recorded call onto an outcome's trace. -/
def prependCall (c : Call) (o : CheckOutcome) : CheckOutcome :=
  ⟨o.result, c :: o.calls, o.stored⟩

/-- `checkUserTelegramSetup`: verify the user (falsy id means
`UNAUTHORIZED`), resolve `botId = TELEGRAM_BOT_USERNAME ?? getBotUsername()`
(a thrown gateway error propagates), then continue with `checkFrom`. -/
def checkUserTelegramSetup (w : World) (username : Option String) :
    CheckOutcome :=
  if jsTruthyOpt w.auth then
    match w.cfg.botUsername with
    | some b => checkFrom w username (w.auth.getD "") b
    | none =>
        match getBotUsername w with
        | Except.ok b =>
            prependCall Call.getMe (checkFrom w username (w.auth.getD "") b)
        | Except.error e => ⟨Except.error e, [Call.getMe], w.storedHandle⟩
  else
    ⟨Except.ok { success := false, error := some "UNAUTHORIZED" }, [],
     w.storedHandle⟩

/-- `verifyTelegramSetupAction`: run `checkUserTelegramSetup` inside
try/catch; a thrown error becomes a uniform failure response carrying the
message; a failure result is forwarded with its error and bot id. -/
def verifyTelegramSetupAction (w : World) (username : Option String) :
    ActionOutcome :=
  match checkUserTelegramSetup w username with
  | ⟨Except.error msg, calls, stored⟩ =>
      ⟨{ success := false
         error := some msg
         data := some { success := false, error := some msg } },
       calls, stored⟩
  | ⟨Except.ok setup, calls, stored⟩ =>
      if setup.success then
        ⟨{ success := true, data := some { success := true } }, calls, stored⟩
      else
        ⟨{ success := false
           error := setup.error
           data := some { success := false
                          error := setup.error
                          botId := setup.botId } },
         calls, stored⟩

/-- `sendTelegramNotification`: return the missing-token failure when the
bot token is falsy; otherwise run `checkUserTelegramSetup`, forward its
failure, and on success POST the message, catching a send failure into a
uniform failure response. -/
def sendTelegramNotification (w : World) (username : Option String)
    (text : String) : ActionOutcome :=
  if jsTruthyOpt w.cfg.botToken = false then
    ⟨{ success := false
       error := some "Telegram bot token not set"
       data := some { success := false } },
     [], w.storedHandle⟩
  else
    match checkUserTelegramSetup w username with
    | ⟨Except.error msg, calls, stored⟩ =>
        ⟨{ success := false
           error := some msg
           data := some { success := false, error := some msg } },
         calls, stored⟩
    | ⟨Except.ok setup, calls, stored⟩ =>
        if setup.success then
          match sendTelegramMessage w (setup.chatId.getD "") text with
          | Except.ok _ =>
              ⟨{ success := true
                 data := some { success := true, botId := setup.botId } },
               calls ++ [Call.sendMessage (setup.chatId.getD "") text],
               stored⟩
          | Except.error msg =>
              ⟨{ success := false
                 error := some msg
                 data := some { success := false, error := some msg } },
               calls ++ [Call.sendMessage (setup.chatId.getD "") text],
               stored⟩
        else
          ⟨{ success := false
             error := setup.error
             data := some { success := false
                            error := setup.error
                            botId := setup.botId } },
           calls, stored⟩

/-- `checkTelegramUsername`: verify the user, read the stored handle, and
report it (or `MISSING_USERNAME_ERROR` when it is falsy). -/
def checkTelegramUsername (w : World) : UsernameOutcome :=
  if jsTruthyOpt w.auth then
    if jsTruthyOpt w.storedHandle then
      ⟨{ success := true, username := w.storedHandle },
       [Call.dbGet (w.auth.getD "")]⟩
    else
      ⟨{ success := false, error := some MISSING_USERNAME_ERROR },
       [Call.dbGet (w.auth.getD "")]⟩
  else
    ⟨{ success := false, error := some "UNAUTHORIZED" }, []⟩

/-- The bot id a run resolves when resolution succeeds:
`TELEGRAM_BOT_USERNAME ?? data.result.username`. -/
def botIdOf (w : World) : String :=
  match w.cfg.botUsername with
  | some b => b
  | none => w.gw.getMeUsername

/-- The handles with which a trace's update-scan calls were made. -/
def scanHandles (calls : List Call) : List String :=
  calls.filterMap (fun c =>
    match c with
    | Call.getUpdates h => some h
    | _ => none)

/-- An all-`@` string sanitizes to the empty string. -/
lemma stripAt_all_at (u : String) (hall : ∀ c ∈ u.data, c = '@') :
    stripAt u = "" := by
  have hfil : u.data.filter (fun c => c != '@') = [] := by
    rw [List.filter_eq_nil_iff]
    intro a ha
    have := hall a ha
    subst this
    simp
  unfold stripAt
  rw [hfil]

/-- `find?` returns the head of the first matching suffix. -/
lemma find_append_first {α : Type} (p : α → Bool) (pre : List α) (x : α)
    (post : List α) (hpre : ∀ y ∈ pre, p y = false) (hx : p x = true) :
    (pre ++ x :: post).find? p = some x := by
  induction pre with
  | nil => simp [List.find?_cons_of_pos, hx]
  | cons a tl ih =>
      have ha : p a = false := hpre a (by simp)
      rw [List.cons_append, List.find?_cons_of_neg _ (by simp [ha])]
      exact ih (fun y hy => hpre y (by simp [hy]))

/-- Exhaustive case analysis of `checkFrom`: missing handle, updates-scan
transport failure, no matching conversation, success with a directory
write, or success with the write skipped. -/
lemma checkFrom_cases (w : World) (o : Option String) (uid b : String) :
    (jsTruthyOpt (finalUsernameOf w o) = false ∧
       checkFrom w o uid b =
         ⟨Except.ok ⟨false, some MISSING_USERNAME_ERROR, some uid, none, none, some b⟩,
          [Call.dbGet uid], w.storedHandle⟩) ∨
    (jsTruthyOpt (finalUsernameOf w o) = true ∧
       ∃ e, getChatIdByUsername w (sanitizedOf w o) = Except.error e ∧
       checkFrom w o uid b =
         ⟨Except.error e,
          [Call.dbGet uid, Call.getUpdates (sanitizedOf w o)], w.storedHandle⟩) ∨
    (jsTruthyOpt (finalUsernameOf w o) = true ∧
       ∃ c, getChatIdByUsername w (sanitizedOf w o) = Except.ok c ∧
       jsTruthyOpt c = false ∧
       checkFrom w o uid b =
         ⟨Except.ok ⟨false, some BOT_NOT_STARTED_ERROR, some uid, none, none, some b⟩,
          [Call.dbGet uid, Call.getUpdates (sanitizedOf w o)], w.storedHandle⟩) ∨
    (jsTruthyOpt (finalUsernameOf w o) = true ∧
       ∃ c, getChatIdByUsername w (sanitizedOf w o) = Except.ok c ∧
       jsTruthyOpt c = true ∧
       (jsTruthyOpt w.storedHandle = false ∨ w.storedHandle ≠ some (sanitizedOf w o)) ∧
       checkFrom w o uid b =
         ⟨Except.ok (successResult uid (sanitizedOf w o) (c.getD "") b),
          [Call.dbGet uid, Call.getUpdates (sanitizedOf w o),
           Call.dbSet uid (sanitizedOf w o)],
          some (sanitizedOf w o)⟩) ∨
    (jsTruthyOpt (finalUsernameOf w o) = true ∧
       ∃ c, getChatIdByUsername w (sanitizedOf w o) = Except.ok c ∧
       jsTruthyOpt c = true ∧
       w.storedHandle = some (sanitizedOf w o) ∧
       checkFrom w o uid b =
         ⟨Except.ok (successResult uid (sanitizedOf w o) (c.getD "") b),
          [Call.dbGet uid, Call.getUpdates (sanitizedOf w o)], w.storedHandle⟩) := by
  unfold checkFrom
  split
  case isTrue hfin =>
    split
    case h_1 e he =>
      right; left
      exact ⟨hfin, e, he, rfl⟩
    case h_2 c hc =>
      split
      case isTrue hct =>
        split
        case isTrue hcond =>
          right; right; right; left
          exact ⟨hfin, c, hc, hct, hcond, rfl⟩
        case isFalse hcond =>
          right; right; right; right
          refine ⟨hfin, c, hc, hct, ?_, rfl⟩
          rcases not_or.mp hcond with ⟨h1, h2⟩
          exact not_not.mp h2
      case isFalse hct =>
        right; right; left
        exact ⟨hfin, c, hc, Bool.not_eq_true _ ▸ Bool.of_not_eq_true hct, rfl⟩
  case isFalse hfin =>
    left
    exact ⟨Bool.of_not_eq_true hfin, rfl⟩

/-- Exhaustive case analysis of `checkUserTelegramSetup`: unauthorized,
bot-identity transport failure, or `checkFrom` with the resolved bot id
(with or without the identity fetch). -/
lemma check_cases (w : World) (o : Option String) :
    (jsTruthyOpt w.auth = false ∧
       checkUserTelegramSetup w o =
         ⟨Except.ok ⟨false, some "UNAUTHORIZED", none, none, none, none⟩, [],
          w.storedHandle⟩) ∨
    (jsTruthyOpt w.auth = true ∧ w.cfg.botUsername = none ∧ w.gw.getMeOk = false ∧
       checkUserTelegramSetup w o =
         ⟨Except.error "Failed to retrieve bot info", [Call.getMe], w.storedHandle⟩) ∨
    (jsTruthyOpt w.auth = true ∧ w.cfg.botUsername ≠ none ∧
       checkUserTelegramSetup w o = checkFrom w o (w.auth.getD "") (botIdOf w)) ∨
    (jsTruthyOpt w.auth = true ∧ w.cfg.botUsername = none ∧ w.gw.getMeOk = true ∧
       checkUserTelegramSetup w o =
         prependCall Call.getMe (checkFrom w o (w.auth.getD "") (botIdOf w))) := by
  cases hauth : jsTruthyOpt w.auth with
  | false =>
      left
      exact ⟨rfl, by simp [checkUserTelegramSetup, hauth]⟩
  | true =>
      cases hb : w.cfg.botUsername with
      | some b =>
          right; right; left
          exact ⟨rfl, by simp [hb],
            by simp [checkUserTelegramSetup, hauth, hb, botIdOf]⟩
      | none =>
          cases hok : w.gw.getMeOk with
          | true =>
              right; right; right
              exact ⟨rfl, rfl, rfl,
                by simp [checkUserTelegramSetup, getBotUsername, hauth, hb, hok,
                  botIdOf]⟩
          | false =>
              right; left
              exact ⟨rfl, rfl, rfl,
                by simp [checkUserTelegramSetup, getBotUsername, hauth, hb, hok]⟩

/-- Every update-scan in a run's trace was made with the sanitized
effective handle. -/
lemma scanHandles_check (w : World) (o : Option String) :
    ∀ h ∈ scanHandles (checkUserTelegramSetup w o).calls, h = sanitizedOf w o := by
  rcases check_cases w o with ⟨_, heq⟩ | ⟨_, _, _, heq⟩ | ⟨_, _, heq⟩ | ⟨_, _, _, heq⟩
  · rw [heq]; simp [scanHandles]
  · rw [heq]; simp [scanHandles]
  · rw [heq]
    rcases checkFrom_cases w o (w.auth.getD "") (botIdOf w) with
        ⟨_, hf⟩ | ⟨_, e, _, hf⟩ | ⟨_, c, _, _, hf⟩ | ⟨_, c, _, _, _, hf⟩ | ⟨_, c, _, _, _, hf⟩ <;>
      rw [hf] <;> simp [scanHandles]
  · rw [heq]
    rcases checkFrom_cases w o (w.auth.getD "") (botIdOf w) with
        ⟨_, hf⟩ | ⟨_, e, _, hf⟩ | ⟨_, c, _, _, hf⟩ | ⟨_, c, _, _, _, hf⟩ | ⟨_, c, _, _, _, hf⟩ <;>
      rw [hf] <;> simp [scanHandles, prependCall]

/-- A gateway where every endpoint succeeds and the update list holds one
message from "bob" in chat "123". -/
def gwBob : Gateway :=
  { getMeOk := true
    getMeUsername := "mybot"
    getUpdatesOk := true
    updates := [{ fromUsername := some "bob", chatId := "123" }]
    sendOk := true }

/-- World for the end-to-end scenario: authenticated user "u" with stored
handle "bob", a fully working gateway, and both environment variables set. -/
def wBob : World :=
  { auth := some "u"
    storedHandle := some "bob"
    gw := gwBob
    cfg := { botToken := some "tok", botUsername := some "mybot" } }

/-- World with stored handle "bob" but an empty update list. -/
def wEmptyOverride : World :=
  { auth := some "u1"
    storedHandle := some "bob"
    gw := { getMeOk := true
            getMeUsername := "mybot"
            getUpdatesOk := true
            updates := []
            sendOk := true }
    cfg := { botToken := some "tok", botUsername := some "mybot" } }

/-- C1 counterexample: with stored handle "bob" and the explicit override
"", the run falls back to the stored handle and reports
BOT_NOT_STARTED_ERROR over the empty update list; the claim instead
predicts MISSING_USERNAME_ERROR for an empty-string override. -/
theorem C1_counterexample :
    (checkUserTelegramSetup wEmptyOverride (some "")).result =
      Except.ok { success := false
                  error := some BOT_NOT_STARTED_ERROR
                  userId := some "u1"
                  botId := some "mybot" } ∧
    BOT_NOT_STARTED_ERROR ≠ MISSING_USERNAME_ERROR :=
  ⟨rfl, by decide⟩

/-- C1 (amended): the effective handle follows JavaScript or-semantics,
not nullish coalescing: an empty-string override behaves exactly like no
override and falls back to the stored handle, while a non-empty override
is the handle used for the rest of the operation — every update-scan of
such a run is made with the sanitized override. -/
theorem C1_effective_handle_js_or (w : World) (u : String) (hu : u ≠ "") :
    checkUserTelegramSetup w (some "") = checkUserTelegramSetup w none ∧
    ∀ h ∈ scanHandles (checkUserTelegramSetup w (some u)).calls,
      h = stripAt u := by
  constructor
  · rfl
  · intro h hmem
    have hs := scanHandles_check w (some u) h hmem
    rw [hs]
    simp [sanitizedOf, finalUsernameOf, jsOr, jsTruthyOpt, hu]

/-- C1 witness: concrete instance of the amended effective-handle rule. -/
theorem C1_effective_handle_js_or_witness :
    checkUserTelegramSetup wBob (some "") = checkUserTelegramSetup wBob none ∧
    ∀ h ∈ scanHandles (checkUserTelegramSetup wBob (some "@alice")).calls,
      h = stripAt "@alice" :=
  C1_effective_handle_js_or wBob "@alice" (by decide)

/-- C6: for the authenticated user with stored handle "bob" and a gateway
update list containing a message from "bob" in chat "123", checkSetup
succeeds with chat id "123" and handle "bob", and the subsequent
notification sends chat id "123" with text "hello" to the gateway and
returns a success result. -/
theorem C6_end_to_end :
    (checkUserTelegramSetup wBob none).result =
      Except.ok { success := true
                  userId := some "u"
                  username := some "bob"
                  chatId := some "123"
                  botId := some "mybot" } ∧
    (sendTelegramNotification wBob none "hello").resp =
      { success := true
        data := some { success := true, botId := some "mybot" } } ∧
    Call.sendMessage "123" "hello" ∈ (sendTelegramNotification wBob none "hello").calls :=
  ⟨rfl, rfl, by decide⟩

/-- C7: with the bot credential falsy the notification action returns the
missing-token failure immediately: no collaborator call at all (hence no
checkSetup run and no gateway call) and unchanged stored state. -/
theorem C7_config_error_short_circuit (w : World) (o : Option String)
    (t : String) (h : jsTruthyOpt w.cfg.botToken = false) :
    sendTelegramNotification w o t =
      ⟨{ success := false
         error := some "Telegram bot token not set"
         data := some { success := false } }, [], w.storedHandle⟩ := by
  simp [sendTelegramNotification, h]

/-- World with the bot token unset. -/
def wNoToken : World :=
  { auth := some "u"
    storedHandle := some "bob"
    gw := gwBob
    cfg := { botToken := none, botUsername := some "mybot" } }

/-- C7 witness at a concrete world with the token unset. -/
theorem C7_config_error_short_circuit_witness :
    sendTelegramNotification wNoToken none "hi" =
      ⟨{ success := false
         error := some "Telegram bot token not set"
         data := some { success := false } }, [], some "bob"⟩ :=
  C7_config_error_short_circuit wNoToken none "hi" rfl

/-- World with no session and the bot token unset. -/
def wNoSession : World :=
  { auth := none
    storedHandle := some "bob"
    gw := gwBob
    cfg := { botToken := none, botUsername := some "mybot" } }

/-- C2 counterexample: an unauthenticated call to sendTelegramNotification
in a world with the bot token unset returns the missing-token failure,
not the Unauthorized failure the claim promises for every public
operation. -/
theorem C2_counterexample :
    wNoSession.auth = none ∧
    (sendTelegramNotification wNoSession none "hi").resp.error =
      some "Telegram bot token not set" ∧
    ("Telegram bot token not set" : String) ≠ "UNAUTHORIZED" :=
  ⟨rfl, rfl, by decide⟩

/-- C2 (amended): for every unauthenticated call, checkUserTelegramSetup,
verifyTelegramSetupAction and checkTelegramUsername return the
Unauthorized failure with an empty collaborator-call trace (no gateway
call and no persistence read or write); sendTelegramNotification likewise
performs no collaborator call, and returns the Unauthorized failure
provided the bot token is configured (with the token unset it returns the
missing-token failure instead). -/
theorem C2_unauthorized_no_calls (w : World) (o : Option String) (t : String)
    (hauth : w.auth = none) :
    (checkUserTelegramSetup w o).result =
      Except.ok { success := false, error := some "UNAUTHORIZED" } ∧
    (checkUserTelegramSetup w o).calls = [] ∧
    (verifyTelegramSetupAction w o).resp =
      { success := false
        error := some "UNAUTHORIZED"
        data := some { success := false, error := some "UNAUTHORIZED" } } ∧
    (verifyTelegramSetupAction w o).calls = [] ∧
    (sendTelegramNotification w o t).calls = [] ∧
    (jsTruthyOpt w.cfg.botToken = true →
      (sendTelegramNotification w o t).resp =
        { success := false
          error := some "UNAUTHORIZED"
          data := some { success := false, error := some "UNAUTHORIZED" } }) ∧
    (checkTelegramUsername w).resp =
      { success := false, error := some "UNAUTHORIZED" } ∧
    (checkTelegramUsername w).calls = [] := by
  have hc : checkUserTelegramSetup w o =
      ⟨Except.ok { success := false, error := some "UNAUTHORIZED" }, [],
       w.storedHandle⟩ := by
    simp [checkUserTelegramSetup, hauth, jsTruthyOpt]
  refine ⟨by rw [hc], by rw [hc], ?_, ?_, ?_, ?_, ?_, ?_⟩
  · simp [verifyTelegramSetupAction, hc]
  · simp [verifyTelegramSetupAction, hc]
  · by_cases ht : jsTruthyOpt w.cfg.botToken = true
    · simp [sendTelegramNotification, ht, hc]
    · have hf : jsTruthyOpt w.cfg.botToken = false := by
        revert ht; cases jsTruthyOpt w.cfg.botToken <;> simp
      simp [sendTelegramNotification, hf]
  · intro ht
    simp [sendTelegramNotification, ht, hc]
  · simp [checkTelegramUsername, hauth, jsTruthyOpt]
  · simp [checkTelegramUsername, hauth, jsTruthyOpt]

/-- World with no session but the bot token configured. -/
def wNoSessionTok : World :=
  { auth := none
    storedHandle := none
    gw := gwBob
    cfg := { botToken := some "tok", botUsername := some "mybot" } }

/-- C2 witness: concrete unauthenticated run with the token configured. -/
theorem C2_unauthorized_no_calls_witness :
    (checkUserTelegramSetup wNoSessionTok none).calls = [] ∧
    (sendTelegramNotification wNoSessionTok none "m").resp =
      { success := false
        error := some "UNAUTHORIZED"
        data := some { success := false, error := some "UNAUTHORIZED" } } := by
  have h := C2_unauthorized_no_calls wNoSessionTok none "m" rfl
  exact ⟨h.2.1, h.2.2.2.2.2.1 (by decide)⟩

/-- World where the identity endpoint fails and no bot username is
configured. -/
def wGetMeFail : World :=
  { auth := some "u"
    storedHandle := some "bob"
    gw := { getMeOk := false
            getMeUsername := ""
            getUpdatesOk := true
            updates := []
            sendOk := true }
    cfg := { botToken := some "tok", botUsername := none } }

/-- C3 counterexample: checkUserTelegramSetup, a public operation, has no
try/catch: when the identity endpoint fails, the gateway error escapes
the operation as a thrown exception instead of a failure result. -/
theorem C3_counterexample :
    (checkUserTelegramSetup wGetMeFail none).result =
      Except.error "Failed to retrieve bot info" := rfl

/-- C3 (amended): the two action-wrapped operations catch every error
thrown inside checkUserTelegramSetup and convert it into the uniform
failure response carrying the human-readable message; the exported
checkUserTelegramSetup itself may propagate such exceptions to its
caller. -/
theorem C3_actions_catch_errors (w : World) (o : Option String)
    (t msg : String)
    (h : (checkUserTelegramSetup w o).result = Except.error msg) :
    (verifyTelegramSetupAction w o).resp =
      { success := false
        error := some msg
        data := some { success := false, error := some msg } } ∧
    (jsTruthyOpt w.cfg.botToken = true →
      (sendTelegramNotification w o t).resp =
        { success := false
          error := some msg
          data := some { success := false, error := some msg } }) := by
  rcases hco : checkUserTelegramSetup w o with ⟨res, calls, stored⟩
  have hres : res = Except.error msg := by rw [hco] at h; exact h
  subst hres
  constructor
  · simp [verifyTelegramSetupAction, hco]
  · intro ht
    simp [sendTelegramNotification, ht, hco]

/-- C3 witness: the wrapped actions convert the identity-endpoint failure
into the uniform failure response. -/
theorem C3_actions_catch_errors_witness :
    (verifyTelegramSetupAction wGetMeFail none).resp =
      { success := false
        error := some "Failed to retrieve bot info"
        data := some { success := false
                       error := some "Failed to retrieve bot info" } } ∧
    (sendTelegramNotification wGetMeFail none "m").resp =
      { success := false
        error := some "Failed to retrieve bot info"
        data := some { success := false
                       error := some "Failed to retrieve bot info" } } := by
  have h := C3_actions_catch_errors wGetMeFail none "m"
    "Failed to retrieve bot info" rfl
  exact ⟨h.1, h.2 (by decide)⟩

/-- World with the empty string stored as handle and an update from the
empty username. -/
def wEmptyStored : World :=
  { auth := some "u"
    storedHandle := some ""
    gw := { getMeOk := true
            getMeUsername := "mybot"
            getUpdatesOk := true
            updates := [{ fromUsername := some "", chatId := "99" }]
            sendOk := true }
    cfg := { botToken := some "tok", botUsername := some "mybot" } }

/-- C4 counterexample: with stored handle "" and override "@", the
normalized handle equals the stored value, yet the run still calls the
persistence set operation: the truthiness test treats the stored empty
string as absent. -/
theorem C4_counterexample :
    wEmptyStored.storedHandle = some (stripAt "@") ∧
    Call.dbSet "u" (stripAt "@") ∈
      (checkUserTelegramSetup wEmptyStored (some "@")).calls :=
  ⟨by decide, by decide⟩

/-- C4 (amended): whenever the stored handle is non-empty and equals the
normalized resolved handle, no run of checkSetup calls the persistence
set operation and the stored state is unchanged; repeating checkSetup
with an at-prefixed or plain spelling of the stored handle is therefore
idempotent on persisted state. -/
theorem C4_skip_set_when_unchanged (w : World) (o : Option String)
    (s : String) (hs : w.storedHandle = some s) (hne : s ≠ "")
    (heq : sanitizedOf w o = s) :
    (∀ c ∈ (checkUserTelegramSetup w o).calls, c.isSet = false) ∧
    (checkUserTelegramSetup w o).stored = w.storedHandle := by
  have hfrom : ∀ uid b, (∀ c ∈ (checkFrom w o uid b).calls, c.isSet = false) ∧
      (checkFrom w o uid b).stored = w.storedHandle := by
    intro uid b
    rcases checkFrom_cases w o uid b with
        ⟨_, hf⟩ | ⟨_, e, _, hf⟩ | ⟨_, c, _, _, hf⟩ | ⟨_, c, _, _, hcond, hf⟩ |
        ⟨_, c, _, _, _, hf⟩
    · rw [hf]; exact ⟨by simp [Call.isSet], rfl⟩
    · rw [hf]; exact ⟨by simp [Call.isSet], rfl⟩
    · rw [hf]; exact ⟨by simp [Call.isSet], rfl⟩
    · exfalso
      rcases hcond with h1 | h2
      · rw [hs] at h1; simp [jsTruthyOpt, hne] at h1
      · exact h2 (by rw [hs, heq])
    · rw [hf]; exact ⟨by simp [Call.isSet], rfl⟩
  rcases check_cases w o with ⟨_, hq⟩ | ⟨_, _, _, hq⟩ | ⟨_, _, hq⟩ | ⟨_, _, _, hq⟩
  · rw [hq]; exact ⟨by simp, rfl⟩
  · rw [hq]; exact ⟨by simp [Call.isSet], rfl⟩
  · rw [hq]; exact hfrom _ _
  · rw [hq]
    obtain ⟨h1, h2⟩ := hfrom (w.auth.getD "") (botIdOf w)
    constructor
    · intro c hc
      simp only [prependCall, List.mem_cons] at hc
      rcases hc with rfl | hc
      · rfl
      · exact h1 c hc
    · simpa [prependCall] using h2

/-- C4 witness: repeating checkSetup with "@bob" after "bob" is stored
performs no persistence write and leaves the stored state unchanged. -/
theorem C4_skip_set_when_unchanged_witness :
    (∀ c ∈ (checkUserTelegramSetup wBob (some "@bob")).calls,
      c.isSet = false) ∧
    (checkUserTelegramSetup wBob (some "@bob")).stored = wBob.storedHandle :=
  C4_skip_set_when_unchanged wBob (some "@bob") "bob" rfl (by decide)
    (by decide)

/-- C5: for an authenticated user whose effective handle is present, with
the bot identity resolvable and the updates endpoint reachable, if no
update's sender username equals the sanitized handle then checkSetup
returns the BOT_NOT_STARTED_ERROR failure carrying the user and bot ids,
performs no persistence set, and leaves the stored state unchanged. -/
theorem C5_bot_not_started_no_set (w : World) (o : Option String)
    (hauth : jsTruthyOpt w.auth = true)
    (hbot : w.cfg.botUsername = none → w.gw.getMeOk = true)
    (hfin : jsTruthyOpt (finalUsernameOf w o) = true)
    (hupd : w.gw.getUpdatesOk = true)
    (hnone : ∀ u ∈ w.gw.updates, u.fromUsername ≠ some (sanitizedOf w o)) :
    (checkUserTelegramSetup w o).result =
      Except.ok { success := false
                  error := some BOT_NOT_STARTED_ERROR
                  userId := some (w.auth.getD "")
                  botId := some (botIdOf w) } ∧
    (∀ c ∈ (checkUserTelegramSetup w o).calls, c.isSet = false) ∧
    (checkUserTelegramSetup w o).stored = w.storedHandle := by
  have hchat : getChatIdByUsername w (sanitizedOf w o) = Except.ok none := by
    have hfind : findChat w.gw.updates (sanitizedOf w o) = none := by
      rw [findChat, List.find?_eq_none]
      intro u hu
      simpa using hnone u hu
    simp [getChatIdByUsername, hupd, hfind]
  have hfrom : ∀ uid b, checkFrom w o uid b =
      ⟨Except.ok { success := false
                   error := some BOT_NOT_STARTED_ERROR
                   userId := some uid
                   botId := some b },
       [Call.dbGet uid, Call.getUpdates (sanitizedOf w o)],
       w.storedHandle⟩ := by
    intro uid b
    rcases checkFrom_cases w o uid b with
        ⟨hf, _⟩ | ⟨_, e, he, _⟩ | ⟨_, c, hc, hct, hf⟩ | ⟨_, c, hc, hct, _, _⟩ |
        ⟨_, c, hc, hct, _, _⟩
    · simp [hf] at hfin
    · rw [he] at hchat; exact Except.noConfusion hchat
    · exact hf
    · rw [hc] at hchat
      injection hchat with hcn
      subst hcn
      simp [jsTruthyOpt] at hct
    · rw [hc] at hchat
      injection hchat with hcn
      subst hcn
      simp [jsTruthyOpt] at hct
  rcases check_cases w o with ⟨hf, _⟩ | ⟨_, hbN, hme, hq⟩ | ⟨_, _, hq⟩ |
      ⟨_, _, _, hq⟩
  · simp [hf] at hauth
  · exact absurd (hbot hbN) (by simp [hme])
  · rw [hq, hfrom]
    exact ⟨rfl, by simp [Call.isSet], rfl⟩
  · rw [hq, hfrom]
    refine ⟨rfl, ?_, rfl⟩
    intro c hc
    simp only [prependCall, List.mem_cons] at hc
    rcases hc with rfl | hc
    · rfl
    · revert hc
      simp [Call.isSet]
      intro h1
      rcases h1 with h1 | h1 <;> simp [h1, Call.isSet]

/-- World where the only update is from a different user. -/
def wNoMatch : World :=
  { auth := some "u"
    storedHandle := some "bob"
    gw := { getMeOk := true
            getMeUsername := "mybot"
            getUpdatesOk := true
            updates := [{ fromUsername := some "alice", chatId := "7" }]
            sendOk := true }
    cfg := { botToken := some "tok", botUsername := some "mybot" } }

/-- C5 witness: stored handle "bob", only update from "alice". -/
theorem C5_bot_not_started_no_set_witness :
    (checkUserTelegramSetup wNoMatch none).result =
      Except.ok { success := false
                  error := some BOT_NOT_STARTED_ERROR
                  userId := some "u"
                  botId := some "mybot" } ∧
    (∀ c ∈ (checkUserTelegramSetup wNoMatch none).calls, c.isSet = false) ∧
    (checkUserTelegramSetup wNoMatch none).stored = some "bob" :=
  C5_bot_not_started_no_set wNoMatch none rfl
    (fun h => Option.noConfusion h) rfl rfl (by decide)

/-- C8: getChatIdByUsername fails exactly when the updates endpoint
responds non-2xx; on success it returns the chat id of the first update
in list order whose sender username equals the handle, and the distinct
not-found value (ok none, not an error) when no update matches. -/
theorem C8_first_match_scan (w : World) (h : String) :
    ((∃ e, getChatIdByUsername w h = Except.error e) ↔
      w.gw.getUpdatesOk = false) ∧
    (∀ pre x post, w.gw.getUpdatesOk = true →
      w.gw.updates = pre ++ x :: post →
      (∀ y ∈ pre, y.fromUsername ≠ some h) → x.fromUsername = some h →
      getChatIdByUsername w h = Except.ok (some x.chatId)) ∧
    (w.gw.getUpdatesOk = true →
      (∀ y ∈ w.gw.updates, y.fromUsername ≠ some h) →
      getChatIdByUsername w h = Except.ok none) := by
  refine ⟨⟨?_, ?_⟩, ?_, ?_⟩
  · rintro ⟨e, he⟩
    by_contra hok
    have hok' : w.gw.getUpdatesOk = true := by
      revert hok; cases w.gw.getUpdatesOk <;> simp
    simp only [getChatIdByUsername, if_pos hok'] at he
    exact Except.noConfusion he
  · intro hko
    exact ⟨"Failed to retrieve bot updates",
      by simp [getChatIdByUsername, hko]⟩
  · intro pre x post hok hupd hpre hx
    have hfind : findChat w.gw.updates h = some x := by
      rw [findChat, hupd]
      apply find_append_first
      · intro y hy
        simp [hpre y hy]
      · simp [hx]
    simp [getChatIdByUsername, hok, hfind]
  · intro hok hnone
    have hfind : findChat w.gw.updates h = none := by
      rw [findChat, List.find?_eq_none]
      intro u hu
      simpa using hnone u hu
    simp [getChatIdByUsername, hok, hfind]

/-- World whose update list has a non-matching entry before two entries
from "bob" with different chat ids. -/
def wTwoBobs : World :=
  { auth := some "u"
    storedHandle := some "bob"
    gw := { getMeOk := true
            getMeUsername := "mybot"
            getUpdatesOk := true
            updates := [{ fromUsername := some "alice", chatId := "7" },
                        { fromUsername := some "bob", chatId := "123" },
                        { fromUsername := some "bob", chatId := "999" }]
            sendOk := true }
    cfg := { botToken := some "tok", botUsername := some "mybot" } }

/-- C8 witness: the scan skips the non-matching head and returns the
first matching entry's chat id, not the later one. -/
theorem C8_first_match_scan_witness :
    getChatIdByUsername wTwoBobs "bob" = Except.ok (some "123") :=
  (C8_first_match_scan wTwoBobs "bob").2.1
    [{ fromUsername := some "alice", chatId := "7" }]
    { fromUsername := some "bob", chatId := "123" }
    [{ fromUsername := some "bob", chatId := "999" }]
    rfl rfl (by decide) rfl

/-- A successful checkFrom run leaves the stored handle equal to the
returned username. -/
lemma checkFrom_success_stored (w : World) (o : Option String)
    (uid b : String) (r : CheckUserSetupResult)
    (h : (checkFrom w o uid b).result = Except.ok r) (hs : r.success = true) :
    (checkFrom w o uid b).stored = r.username := by
  rcases checkFrom_cases w o uid b with
      ⟨_, hf⟩ | ⟨_, e, _, hf⟩ | ⟨_, c, _, _, hf⟩ | ⟨_, c, _, _, _, hf⟩ |
      ⟨_, c, _, _, hst, hf⟩
  · rw [hf] at h ⊢
    injection h with h
    subst h
    simp at hs
  · rw [hf] at h
    exact Except.noConfusion h
  · rw [hf] at h ⊢
    injection h with h
    subst h
    simp at hs
  · rw [hf] at h ⊢
    injection h with h
    subst h
    simp [successResult]
  · rw [hf] at h ⊢
    injection h with h
    subst h
    rw [hst]
    simp [successResult]

/-- C9: after every successful checkUserTelegramSetup run, the handle
stored in the user directory equals the username field of the success
result. -/
theorem C9_success_syncs_store (w : World) (o : Option String)
    (r : CheckUserSetupResult)
    (h : (checkUserTelegramSetup w o).result = Except.ok r)
    (hs : r.success = true) :
    (checkUserTelegramSetup w o).stored = r.username := by
  rcases check_cases w o with ⟨_, hq⟩ | ⟨_, _, _, hq⟩ | ⟨_, _, hq⟩ |
      ⟨_, _, _, hq⟩
  · rw [hq] at h ⊢
    injection h with h
    subst h
    simp at hs
  · rw [hq] at h
    exact Except.noConfusion h
  · rw [hq] at h ⊢
    exact checkFrom_success_stored w o _ _ r h hs
  · rw [hq] at h ⊢
    exact checkFrom_success_stored w o _ _ r h hs

/-- C9 witness: the end-to-end success run leaves "bob" stored, equal to
the returned username. -/
theorem C9_success_syncs_store_witness :
    (checkUserTelegramSetup wBob none).stored =
      ({ success := true
         userId := some "u"
         username := some "bob"
         chatId := some "123"
         botId := some "mybot" } : CheckUserSetupResult).username :=
  C9_success_syncs_store wBob none
    { success := true
      userId := some "u"
      username := some "bob"
      chatId := some "123"
      botId := some "mybot" } rfl rfl

/-- Under a truthy effective handle, a checkFrom value returned without a
thrown error never carries the missing-username error. -/
lemma checkFrom_no_missing (w : World) (o : Option String) (uid b : String)
    (hfin : jsTruthyOpt (finalUsernameOf w o) = true)
    (r : CheckUserSetupResult)
    (h : (checkFrom w o uid b).result = Except.ok r) :
    r.error ≠ some MISSING_USERNAME_ERROR := by
  rcases checkFrom_cases w o uid b with
      ⟨hf, _⟩ | ⟨_, e, _, hf⟩ | ⟨_, c, _, _, hf⟩ | ⟨_, c, _, _, _, hf⟩ |
      ⟨_, c, _, _, _, hf⟩
  · simp [hf] at hfin
  · rw [hf] at h
    exact Except.noConfusion h
  · rw [hf] at h
    injection h with h
    subst h
    show some BOT_NOT_STARTED_ERROR ≠ some MISSING_USERNAME_ERROR
    decide
  · rw [hf] at h
    injection h with h
    subst h
    show (none : Option String) ≠ some MISSING_USERNAME_ERROR
    decide
  · rw [hf] at h
    injection h with h
    subst h
    show (none : Option String) ≠ some MISSING_USERNAME_ERROR
    decide

/-- Under a truthy effective handle, every checkFrom run queries the
updates endpoint with the sanitized handle. -/
lemma checkFrom_has_scan (w : World) (o : Option String) (uid b : String)
    (hfin : jsTruthyOpt (finalUsernameOf w o) = true) :
    Call.getUpdates (sanitizedOf w o) ∈ (checkFrom w o uid b).calls := by
  rcases checkFrom_cases w o uid b with
      ⟨hf, _⟩ | ⟨_, e, _, hf⟩ | ⟨_, c, _, _, hf⟩ | ⟨_, c, _, _, _, hf⟩ |
      ⟨_, c, _, _, _, hf⟩
  · simp [hf] at hfin
  · rw [hf]; simp
  · rw [hf]; simp
  · rw [hf]; simp
  · rw [hf]; simp

/-- C10: a non-empty override consisting only of at-characters passes the
truthiness check before normalization: an authenticated run with a
resolvable bot identity never reports MISSING_USERNAME_ERROR and queries
the gateway with the empty string as the handle. -/
theorem C10_at_only_override (w : World) (u : String) (hu : u ≠ "")
    (hall : ∀ c ∈ u.data, c = '@')
    (hauth : jsTruthyOpt w.auth = true)
    (hbot : w.cfg.botUsername = none → w.gw.getMeOk = true) :
    (∀ r, (checkUserTelegramSetup w (some u)).result = Except.ok r →
      r.error ≠ some MISSING_USERNAME_ERROR) ∧
    Call.getUpdates "" ∈ (checkUserTelegramSetup w (some u)).calls := by
  have hfin : jsTruthyOpt (finalUsernameOf w (some u)) = true := by
    simp [finalUsernameOf, jsOr, jsTruthyOpt, hu]
  have hsan : sanitizedOf w (some u) = "" := by
    have hfu : finalUsernameOf w (some u) = some u := by
      simp [finalUsernameOf, jsOr, jsTruthyOpt, hu]
    simp only [sanitizedOf, hfu, Option.getD_some]
    exact stripAt_all_at u hall
  constructor
  · intro r hr
    rcases check_cases w (some u) with ⟨hf, _⟩ | ⟨_, _, _, hq⟩ |
        ⟨_, _, hq⟩ | ⟨_, _, _, hq⟩
    · simp [hf] at hauth
    · rw [hq] at hr
      exact Except.noConfusion hr
    · rw [hq] at hr
      exact checkFrom_no_missing w (some u) _ _ hfin r hr
    · rw [hq] at hr
      exact checkFrom_no_missing w (some u) _ _ hfin r hr
  · have h2 := checkFrom_has_scan w (some u) (w.auth.getD "") (botIdOf w) hfin
    rw [hsan] at h2
    rcases check_cases w (some u) with ⟨hf, _⟩ | ⟨_, hbN, hme, _⟩ |
        ⟨_, _, hq⟩ | ⟨_, _, _, hq⟩
    · simp [hf] at hauth
    · exact absurd (hbot hbN) (by simp [hme])
    · rw [hq]
      exact h2
    · rw [hq]
      exact List.mem_cons_of_mem _ h2

/-- C10 witness: override "@" sanitizes to "" and the gateway is queried
with the empty handle. -/
theorem C10_at_only_override_witness :
    (∀ r, (checkUserTelegramSetup wBob (some "@")).result = Except.ok r →
      r.error ≠ some MISSING_USERNAME_ERROR) ∧
    Call.getUpdates "" ∈ (checkUserTelegramSetup wBob (some "@")).calls :=
  C10_at_only_override wBob "@" (by decide) (by decide) rfl
    (fun h => Option.noConfusion h)
